import Mathlib

/-!
Shallow embedding of the fault-injection test harness:
three C++ translation units,
`crash_test.cpp` (namespace `CrashTest`),
`simple_console.cpp` (namespace `SimpleConsole`) and
`inject_break.cpp` (namespace `InjectBreak`).

Machine-level effects are modelled explicitly: a memory access is a
`MemOp` whose execution faults at the null (zero) address; integer
division with a zero divisor faults; an out-of-bounds array read is
undefined behaviour; unbounded recursion is given an explicit stack
budget, any finite amount of which is exhausted.  Each faulting
function is embedded as the list of console lines it prints before its
terminal operation, paired with the `Outcome` of that operation.
-/

/-- Direction of a memory access: a load (read) or a store (write). -/
inductive Access
  | read
  | write
  deriving DecidableEq, Repr

/-- Memory operation through a pointer, identified by its address.
Address 0 is the null pointer. -/
inductive MemOp
  | load (addr : Nat)
  | store (addr : Nat) (v : Int)
  deriving DecidableEq, Repr

/-- Access direction of a memory operation. -/
def MemOp.access : MemOp → Access
  | .load _ => .read
  | .store _ _ => .write

/-- Address touched by a memory operation. -/
def MemOp.addr : MemOp → Nat
  | .load a => a
  | .store a _ => a

/-- Environment-level fault classes raised by the hardware/OS. -/
inductive FaultClass
  | accessViolation
  | integerDivideByZero
  | stackExhaustion
  deriving DecidableEq, Repr

/-- Outcome of executing one fault action: a normal return to the
caller, a terminal environment fault, or undefined behaviour. -/
inductive Outcome
  | normalReturn
  | faulted (f : FaultClass)
  | undefinedBehaviour
  deriving DecidableEq, Repr

/-- Execute a memory operation: any access at the null address raises
an access violation; accesses at valid addresses complete normally. -/
def execMemOp (m : MemOp) : Outcome :=
  if m.addr = 0 then .faulted .accessViolation else .normalReturn

/-- Integer division `x / y`: a zero divisor raises an arithmetic
fault, otherwise the operation completes normally. -/
def intDiv (x y : Int) : Outcome :=
  if y = 0 then .faulted .integerDivideByZero else .normalReturn

/-- Read a fixed-size array at an index: an index past the bound is an
out-of-bounds read, i.e. undefined behaviour. -/
def arrayRead (arr : List Int) (idx : Nat) : Outcome :=
  if idx < arr.length then .normalReturn else .undefinedBehaviour

/-- Accumulate the value of a decimal digit prefix, stopping at the
first non-digit character. -/
def parseDigits : List Char → Nat → Nat
  | [], acc => acc
  | c :: cs, acc =>
      if c.isDigit then parseDigits cs (10 * acc + (c.toNat - 48)) else acc

/-- Model of C `atol`/`atoi`: skip leading whitespace, read an
optional sign and a decimal digit prefix; anything unparsable is 0. -/
def parseIntPrefix (s : String) : Int :=
  match s.toList.dropWhile Char.isWhitespace with
  | '-' :: cs => -(parseDigits cs 0 : Int)
  | '+' :: cs => (parseDigits cs 0 : Int)
  | cs => (parseDigits cs 0 : Int)

/-- One line of console output.  Numeric diagnostic lines of
`calculateStatistics` are kept structured; all other lines are plain
text. -/
inductive OutEv
  | sumLine (v : Int)
  | minLine (v : Int)
  | maxLine (v : Int)
  | avgLine (v : Rat)
  | text (s : String)
  deriving DecidableEq, Repr

/-- Closed enumeration of the supported fault kinds. -/
inductive FaultKind
  | NullDereference
  | DivisionByZero
  | StackOverflow
  | OutOfBoundsAccess
  deriving DecidableEq, Repr

namespace CrashTest

/-- Memory operation of `cause_access_violation`: a store of 42
through the null pointer `null_ptr`. -/
def cause_access_violation_op : MemOp := .store 0 42

/-- Embedding of `cause_access_violation`: prints nothing, then
executes the null store. -/
def cause_access_violation : List OutEv × Outcome :=
  ([], execMemOp cause_access_violation_op)

/-- Embedding of `cause_stack_overflow` with an explicit stack budget:
the recursion has no base case, so each call consumes one frame until
the budget is exhausted. -/
def cause_stack_overflow : Nat → Outcome
  | 0 => .faulted .stackExhaustion
  | n + 1 => cause_stack_overflow n

/-- Embedding of `cause_division_by_zero`: computes `10 / 0`; the
result line is unreachable because the division faults. -/
def cause_division_by_zero : List OutEv × Outcome :=
  ([], intDiv 10 0)

/-- Selector-to-fault mapping of the `switch` in `crash_test.cpp`
`main`: case 1 is the access-violation (null-dereference) action,
case 2 the stack overflow, case 3 the division by zero, and the
`default` arm falls back to the access-violation action. -/
def resolveFault (choice : Int) : FaultKind :=
  if choice = 1 then .NullDereference
  else if choice = 2 then .StackOverflow
  else if choice = 3 then .DivisionByZero
  else .NullDereference

/-- Banner and menu lines printed unconditionally at program start. -/
def headerLines : List OutEv :=
  [.text "Crash Test Program",
   .text "Choose crash type:",
   .text "1. Access Violation",
   .text "2. Stack Overflow",
   .text "3. Division by Zero"]

/-- Embedding of `crash_test.cpp` `main`: `choice` defaults to 1 and
is overridden by `atoi(argv[1])` when an argument is present; the
switch then runs the selected fault action.  `stackBudget` is the
stack capacity available to the stack-overflow action. -/
def main (args : List String) (stackBudget : Nat) : List OutEv × Outcome :=
  let choice : Int :=
    match args with
    | [] => 1
    | a :: _ => parseIntPrefix a
  let hdr := headerLines ++
    [OutEv.text ("Triggering crash type " ++ toString choice ++ "...")]
  if choice = 1 then
    (hdr ++ cause_access_violation.1, cause_access_violation.2)
  else if choice = 2 then
    (hdr, cause_stack_overflow stackBudget)
  else if choice = 3 then
    (hdr ++ cause_division_by_zero.1, cause_division_by_zero.2)
  else
    (hdr ++ [OutEv.text "Invalid choice, defaulting to access violation"]
         ++ cause_access_violation.1,
     cause_access_violation.2)

end CrashTest

namespace SimpleConsole

/-- Memory operation of `nullPointerDereference`: a load through the
null pointer `ptr` (the value is printed, i.e. read). -/
def nullPointerDereference_op : MemOp := .load 0

/-- Embedding of `nullPointerDereference`: prints its banner, then
executes the null load; the value line is unreachable. -/
def nullPointerDereference : List OutEv × Outcome :=
  ([.text "Attempting to dereference null pointer..."],
   execMemOp nullPointerDereference_op)

/-- Embedding of `divisionByZero`: prints its banner, then computes
`5 / 0`; the value line is unreachable. -/
def divisionByZero : List OutEv × Outcome :=
  ([.text "Attempting to divide by zero..."], intDiv 5 0)

/-- Embedding of `invalidArrayAccess`: prints its banner, then reads
`arr[10]` of the five-element array `{1,2,3,4,5}`. -/
def invalidArrayAccess : List OutEv × Outcome :=
  ([.text "Attempting to access array out of bounds..."],
   arrayRead [1, 2, 3, 4, 5] 10)

/-- One iteration of the statistics loop body: add the element to the
running sum and update the running minimum and maximum exactly as the
two `if` statements do. -/
def statsStep (acc : Int × Int × Int) (x : Int) : Int × Int × Int :=
  (acc.1 + x,
   if x < acc.2.1 then x else acc.2.1,
   if x > acc.2.2 then x else acc.2.2)

/-- Embedding of `calculateStatistics`: initialises `min` and `max` to
`numbers[0]` (undefined behaviour on an empty array, hence `none`),
folds the loop body over the whole array, prints the four diagnostic
lines and returns the sum.  The average is
`static_cast<double>(sum) / size`, modelled as a rational. -/
def calculateStatistics (numbers : List Int) : Option (Int × List OutEv) :=
  match numbers with
  | [] => none
  | n0 :: _ =>
      let r := numbers.foldl statsStep (0, n0, n0)
      let average : Rat := (r.1 : Rat) / (numbers.length : Rat)
      some (r.1,
        [.sumLine r.1, .minLine r.2.1, .maxLine r.2.2, .avgLine average])

/-- Observable event of the `simple_console` process: a platform
debug-log string, a blocking sleep, a console line, the menu, the
choice prompt, the invalid-choice message, or the blank line printed
between iterations. -/
inductive SEv
  | debugString (s : String)
  | sleep (ms : Nat)
  | line (o : OutEv)
  | menu
  | promptChoice
  | invalidChoice
  | blank
  deriving DecidableEq, Repr

/-- Terminal state of a whole program run: a clean exit with a status
code, a terminal environment fault, undefined behaviour, or blocking
on console input that the model does not supply. -/
inductive ProgOutcome
  | exited (code : Int)
  | faulted (f : FaultClass)
  | undefinedBehaviour
  | awaitingInput
  deriving DecidableEq, Repr

/-- String passed to `OutputDebugString` at the start of test mode. -/
def testModeMsg : String :=
  "Running automated test mode, waiting for 5s then starting."

/-- Embedding of `runTestMode`: emit the debug-log string, sleep 5 s,
run `calculateStatistics` over `{40, 74, 129}`, sleep 2 s, then invoke
`nullPointerDereference`. -/
def runTestMode : List SEv × Outcome :=
  match calculateStatistics [40, 74, 129] with
  | none => ([.debugString testModeMsg, .sleep 5000], .undefinedBehaviour)
  | some (_, out) =>
      ([.debugString testModeMsg, .sleep 5000] ++ out.map SEv.line
         ++ [.sleep 2000] ++ nullPointerDereference.1.map SEv.line,
       nullPointerDereference.2)

/-- Embedding of the interactive `while (true)` loop of `main`,
consuming one `cin` integer per iteration from `inputs`: cases 1-3
run the corresponding fault action, case 4 runs the statistics over
`{1,2,3,4,5}` and continues, case 5 returns 0, and any other choice
prints the invalid-choice message and continues.  An exhausted input
list leaves the program blocked at the prompt. -/
def interactiveLoop : List Int → List SEv × ProgOutcome
  | [] => ([.menu, .promptChoice], .awaitingInput)
  | c :: rest =>
      let body : List SEv × ProgOutcome :=
        if c = 1 then
          (nullPointerDereference.1.map SEv.line, .faulted .accessViolation)
        else if c = 2 then
          (divisionByZero.1.map SEv.line, .faulted .integerDivideByZero)
        else if c = 3 then
          (invalidArrayAccess.1.map SEv.line, .undefinedBehaviour)
        else if c = 4 then
          let next := interactiveLoop rest
          let stats := (calculateStatistics [1, 2, 3, 4, 5]).elim [] Prod.snd
          (stats.map SEv.line ++ [SEv.blank] ++ next.1, next.2)
        else if c = 5 then
          ([], .exited 0)
        else
          let next := interactiveLoop rest
          (SEv.invalidChoice :: SEv.blank :: next.1, next.2)
      (SEv.menu :: SEv.promptChoice :: body.1, body.2)

/-- Embedding of `simple_console.cpp` `main`: exactly one argument
equal to `"test"` selects `runTestMode` (followed by `return 1`,
reachable only if the fault somehow returned); every other invocation
enters the interactive menu loop. -/
def main (args : List String) (inputs : List Int) : List SEv × ProgOutcome :=
  if args = ["test"] then
    let r := runTestMode
    (r.1,
     match r.2 with
     | .normalReturn => .exited 1
     | .faulted f => .faulted f
     | .undefinedBehaviour => .undefinedBehaviour)
  else
    interactiveLoop inputs

end SimpleConsole

namespace InjectBreak

/-- Responses of the operating system to the injector's calls:
whether `OpenProcess` returns a handle, whether `DebugBreakProcess`
succeeds, and the `GetLastError` value reported on failure. -/
structure OS where
  openSucceeds : Bool
  breakSucceeds : Bool
  lastError : Nat
  deriving DecidableEq, Repr

/-- Observable event of one injector run: the usage message, an
`OpenProcess` call for a pid, the attach-failure message with its OS
error code, the `DebugBreakProcess` call, the break-failure message
with its OS error code, or a `CloseHandle` call. -/
inductive Ev
  | printUsage
  | openProcess (pid : Int)
  | printOpenFail (err : Nat)
  | debugBreak
  | printBreakFail (err : Nat)
  | closeHandle
  deriving BEq, DecidableEq, Repr

/-- Event test: is this event an `OpenProcess` call? -/
def Ev.isOpen : Ev → Bool
  | .openProcess _ => true
  | _ => false

/-- Event test: is this event a `CloseHandle` call? -/
def Ev.isClose : Ev → Bool
  | .closeHandle => true
  | _ => false

/-- Embedding of `inject_break.cpp` `main` on the user arguments
(`argc != 2` is an argument count other than one): the usage check,
then `OpenProcess`, `DebugBreakProcess` and `CloseHandle` in order,
each failure printing its message and aborting the rest, the handle
being closed exactly when it was acquired.  Returns the event trace
and the exit status. -/
def main (args : List String) (os : OS) : List Ev × Int :=
  match args with
  | [a] =>
      let pid := parseIntPrefix a
      if os.openSucceeds then
        if os.breakSucceeds then
          ([.openProcess pid, .debugBreak, .closeHandle], 0)
        else
          ([.openProcess pid, .debugBreak, .printBreakFail os.lastError,
            .closeHandle], 1)
      else
        ([.openProcess pid, .printOpenFail os.lastError], 1)
  | _ => ([.printUsage], 1)

/-- Whether this run acquired a process handle: an `OpenProcess` call
was made and the OS let it succeed. -/
def acquiredHandle (os : OS) (evs : List Ev) : Bool :=
  os.openSucceeds && evs.any Ev.isOpen

end InjectBreak

/-- Running minimum: fold of the loop's minimum update over a list,
starting from `a`.  Mirrors the `if (numbers[i] < min)` update. -/
def runMin (a : Int) (l : List Int) : Int :=
  l.foldl (fun b x => if x < b then x else b) a

/-- Running maximum: fold of the loop's maximum update over a list,
starting from `a`.  Mirrors the `if (numbers[i] > max)` update. -/
def runMax (a : Int) (l : List Int) : Int :=
  l.foldl (fun b x => if x > b then x else b) a

/-- Unbounded recursion exhausts every finite stack budget. -/
theorem cause_stack_overflow_eq (n : Nat) :
    CrashTest.cause_stack_overflow n =
      Outcome.faulted FaultClass.stackExhaustion := by
  induction n with
  | zero => rfl
  | succ n ih => simpa [CrashTest.cause_stack_overflow] using ih

/-- Folding the statistics loop body splits into the sum, the running
minimum and the running maximum. -/
theorem foldl_statsStep (l : List Int) (s mn mx : Int) :
    l.foldl SimpleConsole.statsStep (s, mn, mx) =
      (s + l.sum, runMin mn l, runMax mx l) := by
  induction l generalizing s mn mx with
  | nil => simp [runMin, runMax]
  | cons y t ih =>
      simp only [List.foldl_cons, List.sum_cons, SimpleConsole.statsStep,
        ih, runMin, runMax, Prod.mk.injEq]
      simp [add_assoc]

/-- The running minimum never exceeds its starting value. -/
theorem runMin_le_init (l : List Int) : ∀ a : Int, runMin a l ≤ a := by
  induction l with
  | nil => intro a; simp [runMin]
  | cons y t ih =>
      intro a
      calc runMin a (y :: t) = runMin (if y < a then y else a) t := rfl
        _ ≤ (if y < a then y else a) := ih _
        _ ≤ a := by split <;> omega

/-- The running minimum is a lower bound of the traversed list. -/
theorem runMin_le_mem (l : List Int) :
    ∀ a x : Int, x ∈ l → runMin a l ≤ x := by
  induction l with
  | nil => intro a x hx; cases hx
  | cons y t ih =>
      intro a x hx
      rcases List.mem_cons.mp hx with h | h
      · subst h
        calc runMin a (x :: t) = runMin (if x < a then x else a) t := rfl
          _ ≤ (if x < a then x else a) := runMin_le_init t _
          _ ≤ x := by split <;> omega
      · exact ih _ x h

/-- The running minimum is the starting value or a list element. -/
theorem runMin_mem_or_init (l : List Int) :
    ∀ a : Int, runMin a l = a ∨ runMin a l ∈ l := by
  induction l with
  | nil => intro a; left; rfl
  | cons y t ih =>
      intro a
      have hstep : runMin a (y :: t) = runMin (if y < a then y else a) t := rfl
      rcases ih (if y < a then y else a) with h | h
      · rw [hstep, h]
        split
        · right; exact List.mem_cons_self _ _
        · left; rfl
      · right
        rw [hstep]
        exact List.mem_cons_of_mem _ h

/-- The running maximum never falls below its starting value. -/
theorem runMax_ge_init (l : List Int) : ∀ a : Int, a ≤ runMax a l := by
  induction l with
  | nil => intro a; simp [runMax]
  | cons y t ih =>
      intro a
      calc a ≤ (if y > a then y else a) := by split <;> omega
        _ ≤ runMax (if y > a then y else a) t := ih _
        _ = runMax a (y :: t) := rfl

/-- The running maximum is an upper bound of the traversed list. -/
theorem runMax_ge_mem (l : List Int) :
    ∀ a x : Int, x ∈ l → x ≤ runMax a l := by
  induction l with
  | nil => intro a x hx; cases hx
  | cons y t ih =>
      intro a x hx
      rcases List.mem_cons.mp hx with h | h
      · subst h
        calc x ≤ (if x > a then x else a) := by split <;> omega
          _ ≤ runMax (if x > a then x else a) t := runMax_ge_init t _
          _ = runMax a (x :: t) := rfl
      · exact ih _ x h

/-- The running maximum is the starting value or a list element. -/
theorem runMax_mem_or_init (l : List Int) :
    ∀ a : Int, runMax a l = a ∨ runMax a l ∈ l := by
  induction l with
  | nil => intro a; left; rfl
  | cons y t ih =>
      intro a
      have hstep : runMax a (y :: t) = runMax (if y > a then y else a) t := rfl
      rcases ih (if y > a then y else a) with h | h
      · rw [hstep, h]
        split
        · right; exact List.mem_cons_self _ _
        · left; rfl
      · right
        rw [hstep]
        exact List.mem_cons_of_mem _ h

/-- C1: in test mode the AutomatedSequencer (`runTestMode`) computes
the statistics over exactly {40, 74, 129}, producing sum 243,
minimum 40, maximum 129 and average 81, and the full event order is
the debug-log signal, the 5000 ms delay, the statistics lines, the
2000 ms delay and then the terminal null-dereference fault, so the
computation completes strictly before the fault is invoked. -/
theorem runTestMode_statistics_then_fault :
    SimpleConsole.calculateStatistics [40, 74, 129] =
      some (243, [OutEv.sumLine 243, OutEv.minLine 40, OutEv.maxLine 129,
        OutEv.avgLine 81]) ∧
    SimpleConsole.runTestMode =
      ([SimpleConsole.SEv.debugString SimpleConsole.testModeMsg,
        SimpleConsole.SEv.sleep 5000,
        SimpleConsole.SEv.line (OutEv.sumLine 243),
        SimpleConsole.SEv.line (OutEv.minLine 40),
        SimpleConsole.SEv.line (OutEv.maxLine 129),
        SimpleConsole.SEv.line (OutEv.avgLine 81),
        SimpleConsole.SEv.sleep 2000,
        SimpleConsole.SEv.line
          (OutEv.text "Attempting to dereference null pointer...")],
       Outcome.faulted FaultClass.accessViolation) := by
  have hcs : SimpleConsole.calculateStatistics [40, 74, 129] =
      some (243, [OutEv.sumLine 243, OutEv.minLine 40, OutEv.maxLine 129,
        OutEv.avgLine 81]) := by
    simp [SimpleConsole.calculateStatistics, SimpleConsole.statsStep]
    norm_num
  refine ⟨hcs, ?_⟩
  unfold SimpleConsole.runTestMode
  rw [hcs]
  rfl

/-- C2: on every `ProcessBreakInjector` run the handle is closed
exactly once when `OpenProcess` was called and succeeded, and never
closed otherwise, and at most one `OpenProcess` call occurs in the
whole run. -/
theorem injector_releases_iff_acquired (args : List String)
    (os : InjectBreak.OS) :
    ((InjectBreak.main args os).1.countP InjectBreak.Ev.isClose =
      if InjectBreak.acquiredHandle os (InjectBreak.main args os).1
      then 1 else 0) ∧
    (InjectBreak.main args os).1.countP InjectBreak.Ev.isOpen ≤ 1 := by
  rcases os with ⟨o, b, e⟩
  match args with
  | [] =>
      simp [InjectBreak.main, InjectBreak.acquiredHandle,
        InjectBreak.Ev.isOpen, InjectBreak.Ev.isClose, List.countP_cons]
  | [a] =>
      cases o <;> cases b <;>
        simp [InjectBreak.main, InjectBreak.acquiredHandle,
          InjectBreak.Ev.isOpen, InjectBreak.Ev.isClose, List.countP_cons]
  | a :: a2 :: t =>
      simp [InjectBreak.main, InjectBreak.acquiredHandle,
        InjectBreak.Ev.isOpen, InjectBreak.Ev.isClose, List.countP_cons]

/-- C3: the selector-to-fault mapping of `crash_test.cpp` is total
with an idempotent default: every selector outside the known codes
1, 2, 3 resolves to `NullDereference`, the same kind as any other
unknown selector, and no selector is rejected. -/
theorem resolveFault_default (s t : Int)
    (h1 : s ≠ 1) (h2 : s ≠ 2) (h3 : s ≠ 3)
    (g1 : t ≠ 1) (g2 : t ≠ 2) (g3 : t ≠ 3) :
    CrashTest.resolveFault s = FaultKind.NullDereference ∧
    CrashTest.resolveFault s = CrashTest.resolveFault t := by
  simp [CrashTest.resolveFault, h1, h2, h3, g1, g2, g3]

/-- C3 witness: selectors 99 and -7 are both unknown and both resolve
to the default kind. -/
theorem resolveFault_default_witness :
    (99 : Int) ≠ 1 ∧
    (CrashTest.resolveFault 99 = FaultKind.NullDereference ∧
     CrashTest.resolveFault 99 = CrashTest.resolveFault (-7)) :=
  ⟨by decide,
   resolveFault_default 99 (-7) (by decide) (by decide) (by decide)
     (by decide) (by decide) (by decide)⟩

/-- C4 counterexample: the null-dereference action of
`simple_console.cpp`, the one invoked by the AutomatedSequencer, is a
load (`std::cout << *ptr`), not a write, through the null pointer. -/
theorem nullPointerDereference_is_read :
    SimpleConsole.nullPointerDereference_op = MemOp.load 0 ∧
    MemOp.access (MemOp.load 0) ≠ Access.write := ⟨rfl, by decide⟩

/-- C4 amended: every component that triggers the NullDereference
kind dereferences the null (zero) address and raises an access
violation; the `crash_test.cpp` action performs a write of 42, while
the `simple_console.cpp` action, the one the AutomatedSequencer
invokes for its terminal fault, performs a read. -/
theorem nullDereference_components_access_null :
    CrashTest.cause_access_violation_op = MemOp.store 0 42 ∧
    CrashTest.cause_access_violation_op.addr = 0 ∧
    CrashTest.cause_access_violation_op.access = Access.write ∧
    CrashTest.cause_access_violation.2 =
      Outcome.faulted FaultClass.accessViolation ∧
    SimpleConsole.nullPointerDereference_op.addr = 0 ∧
    SimpleConsole.nullPointerDereference_op.access = Access.read ∧
    SimpleConsole.nullPointerDereference.2 =
      Outcome.faulted FaultClass.accessViolation ∧
    SimpleConsole.runTestMode.2 =
      Outcome.faulted FaultClass.accessViolation :=
  ⟨rfl, rfl, rfl, rfl, rfl, rfl, rfl, rfl⟩

/-- C5: none of the fault actions returns control normally for any
stack budget: the null dereferences, the divisions by zero and the
stack overflow end in environment faults, and the out-of-bounds read
continues as undefined behaviour, never as a normal return. -/
theorem fault_actions_no_normal_return (stackBudget : Nat) :
    CrashTest.cause_access_violation.2 =
      Outcome.faulted FaultClass.accessViolation ∧
    CrashTest.cause_stack_overflow stackBudget =
      Outcome.faulted FaultClass.stackExhaustion ∧
    CrashTest.cause_division_by_zero.2 =
      Outcome.faulted FaultClass.integerDivideByZero ∧
    SimpleConsole.nullPointerDereference.2 =
      Outcome.faulted FaultClass.accessViolation ∧
    SimpleConsole.divisionByZero.2 =
      Outcome.faulted FaultClass.integerDivideByZero ∧
    SimpleConsole.invalidArrayAccess.2 = Outcome.undefinedBehaviour ∧
    (∀ f : FaultClass, Outcome.faulted f ≠ Outcome.normalReturn) ∧
    Outcome.undefinedBehaviour ≠ Outcome.normalReturn :=
  ⟨rfl, cause_stack_overflow_eq stackBudget, rfl, rfl, rfl, rfl,
   fun f => by simp, by simp⟩

/-- C6: every injector invocation whose argument count is not exactly
one prints the usage text and exits with status 1, and its trace
contains no `OpenProcess` call. -/
theorem injector_usage_error (args : List String) (os : InjectBreak.OS)
    (h : args.length ≠ 1) :
    InjectBreak.main args os = ([InjectBreak.Ev.printUsage], 1) ∧
    ∀ e ∈ (InjectBreak.main args os).1, InjectBreak.Ev.isOpen e = false := by
  match args with
  | [] =>
      refine ⟨rfl, ?_⟩
      intro e he
      simp [InjectBreak.main] at he
      subst he; rfl
  | [a] => exact absurd rfl h
  | a :: a2 :: t =>
      refine ⟨rfl, ?_⟩
      intro e he
      simp [InjectBreak.main] at he
      subst he; rfl

/-- C6 witness: two arguments yield the usage error with status 1. -/
theorem injector_usage_error_witness :
    (["1", "2"] : List String).length ≠ 1 ∧
    InjectBreak.main ["1", "2"] ⟨true, true, 0⟩ =
      ([InjectBreak.Ev.printUsage], 1) :=
  ⟨by decide,
   (injector_usage_error ["1", "2"] ⟨true, true, 0⟩ (by decide)).1⟩

/-- C7: with exactly one argument and a failing `OpenProcess`, the
injector prints the attach failure with the OS error code and exits
with status 1, with no break request and no handle release in the
trace. -/
theorem injector_attach_error (a : String) (os : InjectBreak.OS)
    (h : os.openSucceeds = false) :
    InjectBreak.main [a] os =
      ([InjectBreak.Ev.openProcess (parseIntPrefix a),
        InjectBreak.Ev.printOpenFail os.lastError], 1) ∧
    InjectBreak.Ev.debugBreak ∉ (InjectBreak.main [a] os).1 ∧
    InjectBreak.Ev.closeHandle ∉ (InjectBreak.main [a] os).1 := by
  have h1 : InjectBreak.main [a] os =
      ([InjectBreak.Ev.openProcess (parseIntPrefix a),
        InjectBreak.Ev.printOpenFail os.lastError], 1) := by
    simp [InjectBreak.main, h]
  refine ⟨h1, ?_, ?_⟩ <;> rw [h1] <;> simp

/-- C7 witness: a run on pid string "9" with a failing `OpenProcess`
reporting error code 5. -/
theorem injector_attach_error_witness :
    (InjectBreak.OS.mk false true 5).openSucceeds = false ∧
    InjectBreak.main ["9"] ⟨false, true, 5⟩ =
      ([InjectBreak.Ev.openProcess (parseIntPrefix "9"),
        InjectBreak.Ev.printOpenFail 5], 1) :=
  ⟨rfl, (injector_attach_error "9" ⟨false, true, 5⟩ rfl).1⟩

/-- C8: in the interactive loop every unrecognized selector emits the
invalid-choice message and the loop continues with the remaining
input, unchanged in outcome, while selector 5 exits with status 0. -/
theorem interactive_invalid_reprompts (c : Int) (rest : List Int)
    (h1 : c ≠ 1) (h2 : c ≠ 2) (h3 : c ≠ 3) (h4 : c ≠ 4) (h5 : c ≠ 5) :
    SimpleConsole.interactiveLoop (c :: rest) =
      (SimpleConsole.SEv.menu :: SimpleConsole.SEv.promptChoice ::
         SimpleConsole.SEv.invalidChoice :: SimpleConsole.SEv.blank ::
         (SimpleConsole.interactiveLoop rest).1,
       (SimpleConsole.interactiveLoop rest).2) ∧
    SimpleConsole.interactiveLoop (5 :: rest) =
      ([SimpleConsole.SEv.menu, SimpleConsole.SEv.promptChoice],
       SimpleConsole.ProgOutcome.exited 0) := by
  constructor
  · simp [SimpleConsole.interactiveLoop, h1, h2, h3, h4, h5]
  · simp [SimpleConsole.interactiveLoop]

/-- C8 witness: selector 7 re-prompts and the loop goes on to process
the remaining input list [9]. -/
theorem interactive_invalid_reprompts_witness :
    (7 : Int) ≠ 1 ∧
    SimpleConsole.interactiveLoop [7, 9] =
      (SimpleConsole.SEv.menu :: SimpleConsole.SEv.promptChoice ::
         SimpleConsole.SEv.invalidChoice :: SimpleConsole.SEv.blank ::
         (SimpleConsole.interactiveLoop [9]).1,
       (SimpleConsole.interactiveLoop [9]).2) :=
  ⟨by decide,
   (interactive_invalid_reprompts 7 [9] (by decide) (by decide) (by decide)
      (by decide) (by decide)).1⟩

/-- C9 counterexample: `crash_test.cpp` invoked with no arguments
triggers the access-violation fault directly after printing its
banner and the "Triggering crash type 1..." line; it never enters an
interactive menu and never reads input. -/
theorem crashTest_no_args_triggers_fault :
    (CrashTest.main [] 0).2 = Outcome.faulted FaultClass.accessViolation ∧
    (CrashTest.main [] 0).1 =
      CrashTest.headerLines ++ [OutEv.text "Triggering crash type 1..."] :=
  ⟨rfl, rfl⟩

/-- C9 amended: `simple_console.cpp` invoked with no arguments enters
the interactive menu, printing the menu and the choice prompt and
blocking on input, while `crash_test.cpp` invoked with no arguments
prints its menu text but triggers the default fault, selector 1
(access violation), directly without reading input. -/
theorem no_args_enters_menu_or_faults (inputs : List Int)
    (stackBudget : Nat) :
    (∃ r, (SimpleConsole.main [] inputs).1 =
       SimpleConsole.SEv.menu :: SimpleConsole.SEv.promptChoice :: r) ∧
    (SimpleConsole.main [] []).2 = SimpleConsole.ProgOutcome.awaitingInput ∧
    (CrashTest.main [] stackBudget).2 =
      Outcome.faulted FaultClass.accessViolation := by
  refine ⟨?_, rfl, rfl⟩
  have hm : SimpleConsole.main [] inputs =
      SimpleConsole.interactiveLoop inputs := rfl
  rw [hm]
  match inputs with
  | [] => exact ⟨[], rfl⟩
  | c :: rest => exact ⟨_, rfl⟩

/-- C10: on every nonempty integer list, `calculateStatistics`
returns the sum of the elements and prints the sum, the minimum
element, the maximum element and the sum divided by the size as the
average; the empty list is rejected (`none`) because the function
reads element 0 and divides by the size. -/
theorem calculateStatistics_spec (l : List Int) (h : l ≠ []) :
    ∃ mn mx : Int,
      SimpleConsole.calculateStatistics l =
        some (l.sum,
          [OutEv.sumLine l.sum, OutEv.minLine mn, OutEv.maxLine mx,
           OutEv.avgLine ((l.sum : Rat) / (l.length : Rat))]) ∧
      mn ∈ l ∧ (∀ x ∈ l, mn ≤ x) ∧ mx ∈ l ∧ (∀ x ∈ l, x ≤ mx) := by
  match l with
  | [] => exact absurd rfl h
  | n0 :: t =>
      refine ⟨runMin n0 (n0 :: t), runMax n0 (n0 :: t), ?_, ?_, ?_, ?_, ?_⟩
      · show SimpleConsole.calculateStatistics (n0 :: t) = _
        simp only [SimpleConsole.calculateStatistics, foldl_statsStep]
        simp
      · rcases runMin_mem_or_init (n0 :: t) n0 with h1 | h1
        · rw [h1]; exact List.mem_cons_self _ _
        · exact h1
      · intro x hx; exact runMin_le_mem _ _ _ hx
      · rcases runMax_mem_or_init (n0 :: t) n0 with h1 | h1
        · rw [h1]; exact List.mem_cons_self _ _
        · exact h1
      · intro x hx; exact runMax_ge_mem _ _ _ hx

/-- C10 witness: the statistics of [5, 2, 9] are sum 16, a minimum
and a maximum that are elements bounding the list, and average 16/3. -/
theorem calculateStatistics_spec_witness :
    ([5, 2, 9] : List Int) ≠ [] ∧
    (∃ mn mx : Int,
      SimpleConsole.calculateStatistics [5, 2, 9] =
        some (([5, 2, 9] : List Int).sum,
          [OutEv.sumLine ([5, 2, 9] : List Int).sum, OutEv.minLine mn,
           OutEv.maxLine mx,
           OutEv.avgLine (((([5, 2, 9] : List Int).sum : Int) : Rat) /
             ((([5, 2, 9] : List Int).length : Nat) : Rat))]) ∧
      mn ∈ ([5, 2, 9] : List Int) ∧
      (∀ x ∈ ([5, 2, 9] : List Int), mn ≤ x) ∧
      mx ∈ ([5, 2, 9] : List Int) ∧
      (∀ x ∈ ([5, 2, 9] : List Int), x ≤ mx)) :=
  ⟨by decide, calculateStatistics_spec [5, 2, 9] (by decide)⟩
